import Mathlib

/-!
Verification development for the Doctor App backend (`main.py`, `schemas.py`).

The Python handlers and the Pydantic models are shallowly embedded as
executable Lean definitions over `String` / `List Char`, with explicit
state passing for the MongoDB collections. HTTP failures
(`HTTPException`) become an explicit `ApiError` sum, so every fallible
handler returns `Except ApiError _`.

The generic document adapter (`database.py`: `get_documents`,
`create_document`) is not part of the available sources; where a
definition depends on it, the definition is modelled from the spec and
says so in its doc comment.
-/

set_option autoImplicit false

namespace DoctorApp

/-- ASCII lower-casing, the fragment of Python's case-insensitive
comparison (`re.IGNORECASE`, `$options: "i"`) relevant to ASCII text. -/
def lowerC (c : Char) : Char :=
  if 'A' ≤ c ∧ c ≤ 'Z' then Char.ofNat (c.toNat + 32) else c

/-- Python `str.strip()` whitespace: space, tab, newline, carriage
return, vertical tab, form feed. -/
def isPySpace (c : Char) : Bool :=
  c == ' ' || c == '\t' || c == '\n' || c == '\r' || c == '\x0b' || c == '\x0c'

/-- Remove trailing Python whitespace. -/
def dropTrailingWs (l : List Char) : List Char :=
  (l.reverse.dropWhile isPySpace).reverse

/-- Python `str.strip()`: remove leading and trailing whitespace. -/
def pyStrip (l : List Char) : List Char :=
  dropTrailingWs (l.dropWhile isPySpace)

/-- `startsWithL n h` : `n` is a prefix of `h` (Boolean, by recursion). -/
def startsWithL : List Char → List Char → Bool
  | [], _ => true
  | _ :: _, [] => false
  | a :: as, b :: bs => a == b && startsWithL as bs

/-- `containsL n h` : `n` occurs as a contiguous segment of `h`. -/
def containsL (n : List Char) : List Char → Bool
  | [] => startsWithL n []
  | b :: bs => startsWithL n (b :: bs) || containsL n bs

/- ### Transcript extractor (`main.py`, `generate_emr`, ll. 240-263)

Each pattern has the form `label[:\-]\s*(.*)` and is searched with
`re.IGNORECASE | re.DOTALL`.  `re.search` finds the leftmost position at
which the (lower-cased) text carries the label followed by `:` or `-`;
because of `DOTALL` the greedy `(.*)` then captures everything to the end
of the text, and `\s*` plus the subsequent `.strip()` amount to
`pyStrip` of that remainder. -/

/-- Does the pattern `label` followed by `:` or `-` match at the head of
`s` (case-insensitively)? -/
def hereMatch (label s : List Char) : Bool :=
  ((s.take label.length).map lowerC == label) &&
    (match s.drop label.length with
     | d :: _ => d == ':' || d == '-'
     | [] => false)

/-- Index of the leftmost match of `label[:\-]` in `text`, as found by
`re.search`. -/
def findIdx (label : List Char) : List Char → Option Nat
  | [] => none
  | c :: cs =>
    if hereMatch label (c :: cs) then some 0
    else (findIdx label cs).map (· + 1)

/-- The inner helper `find` of `generate_emr`: leftmost match of
`label[:\-]\s*(.*)` under `IGNORECASE | DOTALL`, group 1 stripped. -/
def reFind (label text : List Char) : Option (List Char) :=
  (findIdx label text).map (fun i => pyStrip (text.drop (i + label.length + 1)))

/-- Python truthiness of an optional string: `None` and `""` are falsy. -/
def truthyL : Option (List Char) → Bool
  | some (_ :: _) => true
  | _ => false

/-- Python `a or b` on optional strings. -/
def pyOrL (a b : Option (List Char)) : Option (List Char) :=
  if truthyL a then a else b

/-- The dict comprehension `{k: v for k, v in emr.items() if v}`:
falsy values (`None`, `""`) are dropped. -/
def cleanL (o : Option (List Char)) : Option (List Char) :=
  if truthyL o then o else none

/-- Errors raised by the handlers (`HTTPException`); the spec's
`InvalidIdentifier` / `EmptyInput` are 400s, `NotFound` a 404. -/
inductive ApiError
  | badRequest (detail : String)
  | notFound (detail : String)
deriving DecidableEq

/-- The extraction result of `generate_emr`: a dict whose keys survive
the falsy-filter.  `none` = key absent from the response. -/
structure EmrOut where
  chief_complaint : Option (List Char) := none
  history_of_present_illness : Option (List Char) := none
  review_of_systems : Option (List Char) := none
  physical_exam : Option (List Char) := none
  assessment : Option (List Char) := none
  plan : Option (List Char) := none
  summary : Option (List Char) := none
deriving DecidableEq

/-- `POST /emr/generate` (`main.py` ll. 240-263).  The `style` hint is
unused by the handler and omitted. -/
def generate_emr (transcript : String) : Except ApiError EmrOut :=
  let text := pyStrip transcript.data
  if text = [] then .error (.badRequest "Transcript is empty")
  else
    .ok {
      chief_complaint :=
        cleanL (pyOrL (reFind "chief complaint".data text) (reFind "cc".data text)),
      history_of_present_illness := cleanL (reFind "hpi".data text),
      review_of_systems := cleanL (reFind "ros".data text),
      physical_exam := cleanL (reFind "exam".data text),
      assessment := cleanL (reFind "assessment".data text),
      plan := cleanL (reFind "plan".data text),
      summary := cleanL (some (text.take 500)) }

/- ### Prescription preview (`main.py`, `prescription_preview`, ll. 272-286) -/

/-- One medication entry of `PrescriptionInput.medications`.  The Python
code reads a free-form dict with `m.get(key, default)`; `none` models an
absent key (spec §9 reframes the entries as exactly this typed record). -/
structure Medication where
  name : Option String := none
  dose : Option String := none
  route : Option String := none
  frequency : Option String := none
  duration : Option String := none
  notes : Option String := none
deriving DecidableEq

/-- Body of `POST /prescription/preview`. -/
structure PrescriptionInput where
  medications : List Medication
  notes : Option String := none
deriving DecidableEq

/-- Result of the preview endpoint. -/
structure PreviewOut where
  preview : String
  count : Nat
deriving DecidableEq

/-- The per-medication line of `prescription_preview`:
`", ".join([x for x in [name, dose, route, freq, duration] if x])`, with
`name = m.get("name", "Medicine")` and the note appended after an
em-dash when truthy. -/
def medLine (m : Medication) : String :=
  let fields := [m.name.getD "Medicine", m.dose.getD "", m.route.getD "",
                 m.frequency.getD "", m.duration.getD ""]
  let line := String.intercalate ", " (fields.filter (fun x => x ≠ ""))
  match m.notes with
  | some n => if n ≠ "" then line ++ " — " ++ n else line
  | none => line

/-- `POST /prescription/preview` (`main.py` ll. 272-286). -/
def prescription_preview (payload : PrescriptionInput) : PreviewOut :=
  let lines := payload.medications.map medLine
  { preview := String.intercalate "\n" lines, count := lines.length }

/- ### Appointment creation (`schemas.py` ll. 39-48, `main.py` ll. 116-119) -/

/-- A stored appointment document, per the `Appointment` Pydantic model. -/
structure AppointmentDoc where
  doctor_id : String
  patient_id : String
  facility_id : Option String := none
  start_time : String
  end_time : Option String := none
  status : String
  reason : Option String := none
  notes : Option String := none
  tenant_id : Option String := none
deriving DecidableEq

/-- A creation payload for `POST /appointments`: the required fields must
be present, `status` may be omitted (`none`).  Pydantic performs no
validation on the `status` string beyond it being a string. -/
structure AppointmentPayload where
  doctor_id : String
  patient_id : String
  facility_id : Option String := none
  start_time : String
  end_time : Option String := none
  status : Option String := none
  reason : Option String := none
  notes : Option String := none
  tenant_id : Option String := none
deriving DecidableEq

/-- The status values named in the `Appointment.status` field description
(`"scheduled|completed|cancelled|no_show"`). -/
def appointmentStatuses : List String := ["scheduled", "completed", "cancelled", "no_show"]

/-- Validation of an appointment creation payload: the only rule the
model applies to `status` is the default `"scheduled"`
(`status: str = Field("scheduled", ...)`). -/
def mkAppointment (p : AppointmentPayload) : AppointmentDoc :=
  { doctor_id := p.doctor_id, patient_id := p.patient_id,
    facility_id := p.facility_id, start_time := p.start_time,
    end_time := p.end_time, status := p.status.getD "scheduled",
    reason := p.reason, notes := p.notes, tenant_id := p.tenant_id }

/- ### Identifiers (`main.py`, `oid`, ll. 23-27) -/

/-- Hex digit, either case. -/
def isHexChar (c : Char) : Bool :=
  ('0' ≤ c && c ≤ '9') || ('a' ≤ c && c ≤ 'f') || ('A' ≤ c && c ≤ 'F')

/-- `bson.ObjectId(s)` succeeds on a string exactly when it is 24 hex
characters. -/
def isValidObjectId (s : String) : Bool :=
  s.data.length == 24 && s.data.all isHexChar

/-- The canonical (byte-level) form of a hex ObjectId string: ObjectId
equality is case-insensitive on the hex digits. -/
def canonId (s : String) : String := ⟨s.data.map lowerC⟩

/-- The `oid` helper: `ObjectId(id_str)` or `HTTPException(400, "Invalid
id format")`. -/
def oid (s : String) : Except ApiError String :=
  if isValidObjectId s then .ok (canonId s) else .error (.badRequest "Invalid id format")

/- ### Stores and get/update endpoints -/

/-- A stored patient document, per the `Patient` Pydantic model. -/
structure PatientDoc where
  full_name : String
  dob : Option String := none
  gender : Option String := none
  email : Option String := none
  phone : Option String := none
  address : Option String := none
  tenant_id : Option String := none
deriving DecidableEq

/-- A stored doctor document, per the `Doctor` Pydantic model. -/
structure DoctorDoc where
  full_name : String
  email : String
  phone : Option String := none
  specialty : Option String := none
  avatar_url : Option String := none
  facility_ids : List String := []
  bio : Option String := none
  tenant_id : Option String := none
deriving DecidableEq

/-- A MongoDB collection keyed by `_id` (canonical hex string); `_id` is
unique, so `find_one` takes the first (only) entry with the key. -/
def find_one {α : Type} (st : List (String × α)) (i : String) : Option α :=
  (st.find? (fun p => p.fst == i)).map (fun p => p.snd)

/-- `GET /patients/{patient_id}` (`main.py` ll. 170-175).  `oid` runs
first; a well-formed id that matches nothing is a 404. -/
def get_patient (st : List (String × PatientDoc)) (patient_id : String) :
    Except ApiError PatientDoc :=
  match oid patient_id with
  | .error e => .error e
  | .ok i =>
    match find_one st i with
    | none => .error (.notFound "Patient not found")
    | some d => .ok d

/-- `GET /appointments/{appointment_id}` (`main.py` ll. 178-183). -/
def get_appointment (st : List (String × AppointmentDoc)) (appointment_id : String) :
    Except ApiError AppointmentDoc :=
  match oid appointment_id with
  | .error e => .error e
  | .ok i =>
    match find_one st i with
    | none => .error (.notFound "Appointment not found")
    | some d => .ok d

/-- The `DoctorUpdate` body of `PATCH /doctors/{doctor_id}`; `none`
models a field that is absent (or `null`, which `exclude_none` drops). -/
structure DoctorUpdate where
  full_name : Option String := none
  phone : Option String := none
  specialty : Option String := none
  avatar_url : Option String := none
  bio : Option String := none
  facility_ids : Option (List String) := none
deriving DecidableEq

/-- `payload.model_dump(exclude_none=True)` is the empty dict iff every
field is `None`. -/
def DoctorUpdate.isEmpty (u : DoctorUpdate) : Bool :=
  u.full_name.isNone && u.phone.isNone && u.specialty.isNone &&
    u.avatar_url.isNone && u.bio.isNone && u.facility_ids.isNone

/-- MongoDB `$set` of the `exclude_none` field dump onto a document:
each provided field is overwritten, every other field is kept. -/
def applyDoctorUpdate (u : DoctorUpdate) (d : DoctorDoc) : DoctorDoc :=
  { d with
    full_name := u.full_name.getD d.full_name,
    phone := match u.phone with | some v => some v | none => d.phone,
    specialty := match u.specialty with | some v => some v | none => d.specialty,
    avatar_url := match u.avatar_url with | some v => some v | none => d.avatar_url,
    bio := match u.bio with | some v => some v | none => d.bio,
    facility_ids := u.facility_ids.getD d.facility_ids }

/-- Result of `PATCH /doctors/{doctor_id}`: either `{"updated": False}`
or the (re-fetched) updated document. -/
inductive DoctorUpdateResp
  | noUpdate
  | doc (d : DoctorDoc)
deriving DecidableEq

/-- `PATCH /doctors/{doctor_id}` (`main.py` ll. 196-205).  The empty-body
check runs before `oid`; otherwise `update_one` with `$set` (404 when no
document matches) followed by `find_one` of the updated document. -/
def update_doctor (st : List (String × DoctorDoc)) (doctor_id : String) (u : DoctorUpdate) :
    Except ApiError (List (String × DoctorDoc) × DoctorUpdateResp) :=
  if u.isEmpty then .ok (st, .noUpdate)
  else
    match oid doctor_id with
    | .error e => .error e
    | .ok i =>
      match find_one st i with
      | none => .error (.notFound "Doctor not found")
      | some d =>
        let d' := applyDoctorUpdate u d
        .ok (st.map (fun p => if p.fst == i then (p.fst, d') else p), .doc d')

/- ### List endpoints (`main.py` ll. 135-161)

The handlers build a MongoDB filter dict and pass it to
`get_documents` from `database.py`, which is not among the available
sources.  The filter dicts the three handlers can build are captured by
the query records below, and document matching is modelled from the
spec (§4.2 "documents matching an equality/pattern filter", §4.3
"equality parameters contribute an exact-match constraint; the `search`
parameter contributes a case-insensitive substring match against
`full_name`; multiple parameters combine with logical AND"). -/

/-- Python truthiness of an `Optional[str]` parameter: `None` and `""`
are falsy, so `if tenant_id:` skips both. -/
def truthyStr : Option String → Bool
  | none => false
  | some s => !(s == "")

/-- Filter dict of `list_doctors`: at most a `tenant_id` equality. -/
structure DoctorQuery where
  tenant_id : Option String := none
deriving DecidableEq

/-- Modelled from the spec: equality-filter evaluation performed by
`get_documents` (`database.py`, not in the sources), per spec §4.2/§4.3. -/
def doctorMatches (q : DoctorQuery) (d : DoctorDoc) : Bool :=
  match q.tenant_id with
  | none => true
  | some t => d.tenant_id == some t

/-- `GET /doctors` (`main.py` ll. 135-139): `q = {"tenant_id":
tenant_id} if tenant_id else {}`. -/
def list_doctors (st : List DoctorDoc) (tenant_id : Option String) : List DoctorDoc :=
  let q : DoctorQuery := if truthyStr tenant_id then { tenant_id := tenant_id } else {}
  st.filter (doctorMatches q)

/-- Filter dict of `list_patients`: optional `tenant_id` equality and
optional `full_name` search (`{"$regex": search, "$options": "i"}`). -/
structure PatientQuery where
  tenant_id : Option String := none
  search : Option String := none
deriving DecidableEq

/-- Case-insensitive containment, ASCII case folding. -/
def containsCI (hay needle : String) : Bool :=
  containsL (needle.data.map lowerC) (hay.data.map lowerC)

/-- Modelled from the spec: `get_documents` evaluation of the patient
filter.  The `$regex`/`$options: "i"` constraint on `full_name` is
modelled by the spec's words, "a case-insensitive substring match
against `full_name`" (§4.3); the `tenant_id` key is an equality. -/
def patientMatches (q : PatientQuery) (d : PatientDoc) : Bool :=
  (match q.tenant_id with
   | none => true
   | some t => d.tenant_id == some t) &&
  (match q.search with
   | none => true
   | some s => containsCI d.full_name s)

/-- `GET /patients` (`main.py` ll. 142-148). -/
def list_patients (st : List PatientDoc) (tenant_id search : Option String) :
    List PatientDoc :=
  let q0 : PatientQuery := if truthyStr tenant_id then { tenant_id := tenant_id } else {}
  let q : PatientQuery := if truthyStr search then { q0 with search := search } else q0
  st.filter (patientMatches q)

/-- Filter dict of `list_appointments`: up to three equality keys. -/
structure AppointmentQuery where
  doctor_id : Option String := none
  tenant_id : Option String := none
  status : Option String := none
deriving DecidableEq

/-- Modelled from the spec: equality-filter evaluation performed by
`get_documents` for the appointment filter (spec §4.2/§4.3). -/
def appointmentMatches (q : AppointmentQuery) (d : AppointmentDoc) : Bool :=
  (match q.doctor_id with
   | none => true
   | some x => d.doctor_id == x) &&
  (match q.tenant_id with
   | none => true
   | some x => d.tenant_id == some x) &&
  (match q.status with
   | none => true
   | some x => d.status == x)

/-- `GET /appointments` (`main.py` ll. 151-161): each parameter is added
to the filter only when truthy. -/
def list_appointments (st : List AppointmentDoc)
    (doctor_id tenant_id status : Option String) : List AppointmentDoc :=
  let q0 : AppointmentQuery := {}
  let q1 := if truthyStr doctor_id then { q0 with doctor_id := doctor_id } else q0
  let q2 := if truthyStr tenant_id then { q1 with tenant_id := tenant_id } else q1
  let q3 := if truthyStr status then { q2 with status := status } else q2
  st.filter (appointmentMatches q3)

/- ### Claim-side specifications

Independent (index- and existence-based) characterizations of the
behaviours claimed by the spec, against which the executable embedding
above is judged. -/

/-- The pattern `label` followed by `:` or `-` occurs at position `i` of
`text`, comparing the label case-insensitively. -/
def labelAt (label text : List Char) (i : Nat) : Prop :=
  ((text.drop i).take label.length).map lowerC = label ∧
  ∃ d, ((text.drop i).drop label.length).head? = some d ∧ (d = ':' ∨ d = '-')

/-- `o` is exactly the section captured for `label` in `text`: it is
`some v` precisely when the label occurs, `i` is its leftmost
occurrence, and `v` is the whole remainder of the text after the label
and its separator, stripped — and that remainder is non-blank
(blank captures are omitted from the response). -/
def capturesTo (label text : List Char) (o : Option (List Char)) : Prop :=
  ∀ v, o = some v ↔
    (v ≠ [] ∧ ∃ i, labelAt label text i ∧ (∀ j, j < i → ¬ labelAt label text j) ∧
      v = pyStrip (text.drop (i + label.length + 1)))

/-- The `label` pattern matches in `text` and its (leftmost) capture is
non-blank — i.e. the Python value `find(label...)` is truthy, so the
`or`-fallback to the `"cc"` pattern is not taken. -/
def primaryTruthy (label text : List Char) : Prop :=
  ∃ i, labelAt label text i ∧ (∀ j, j < i → ¬ labelAt label text j) ∧
    pyStrip (text.drop (i + label.length + 1)) ≠ []

/-- The amended C1 property: on a non-blank transcript each of the six
sections is captured per `capturesTo` — label recognized
case-insensitively when immediately followed by `:` or `-`, value = all
text from after the label to the END of the text (trimmed), with
`chief complaint` falling back to the `cc` pattern when the primary
capture is falsy. -/
def C1Body (t : String) : Prop :=
  ∃ r, generate_emr t = .ok r ∧
    capturesTo "hpi".data (pyStrip t.data) r.history_of_present_illness ∧
    capturesTo "ros".data (pyStrip t.data) r.review_of_systems ∧
    capturesTo "exam".data (pyStrip t.data) r.physical_exam ∧
    capturesTo "assessment".data (pyStrip t.data) r.assessment ∧
    capturesTo "plan".data (pyStrip t.data) r.plan ∧
    (primaryTruthy "chief complaint".data (pyStrip t.data) →
      capturesTo "chief complaint".data (pyStrip t.data) r.chief_complaint) ∧
    (¬ primaryTruthy "chief complaint".data (pyStrip t.data) →
      capturesTo "cc".data (pyStrip t.data) r.chief_complaint)

/-- `n` occurs as a contiguous segment of `h` (claim-side substring
containment). -/
def occursIn (n h : List Char) : Prop := ∃ u v, h = u ++ n ++ v

/-- The medication line as the claim words it: the join with `", "` of
the non-empty fields among name (defaulting to the literal `"Medicine"`
when absent), dose, route, frequency and duration, in that fixed order,
with a non-empty notes value appended after an em-dash separator. -/
def specMedicationLine (m : Medication) : String :=
  let fields := ([some (m.name.getD "Medicine"), m.dose, m.route,
                  m.frequency, m.duration].filterMap id).filter (fun x => x ≠ "")
  let base := String.intercalate ", " fields
  match m.notes with
  | some n => if n = "" then base else base ++ " — " ++ n
  | none => base

/-- The frame conditions C8 claims of an updated doctor document `d'`
obtained from `d` by the partial update `u`: non-updatable fields are
unchanged, provided fields take the new value, omitted fields keep the
prior value, and in particular an update carrying only `full_name`
changes only `full_name`. -/
def UpdatedDoctorSpec (u : DoctorUpdate) (d d' : DoctorDoc) : Prop :=
  d'.email = d.email ∧ d'.tenant_id = d.tenant_id ∧
  (∀ x, u.full_name = some x → d'.full_name = x) ∧
  (u.full_name = none → d'.full_name = d.full_name) ∧
  (∀ x, u.phone = some x → d'.phone = some x) ∧
  (u.phone = none → d'.phone = d.phone) ∧
  (∀ x, u.specialty = some x → d'.specialty = some x) ∧
  (u.specialty = none → d'.specialty = d.specialty) ∧
  (∀ x, u.avatar_url = some x → d'.avatar_url = some x) ∧
  (u.avatar_url = none → d'.avatar_url = d.avatar_url) ∧
  (∀ x, u.bio = some x → d'.bio = some x) ∧
  (u.bio = none → d'.bio = d.bio) ∧
  (∀ x, u.facility_ids = some x → d'.facility_ids = x) ∧
  (u.facility_ids = none → d'.facility_ids = d.facility_ids) ∧
  (∀ x, u = { full_name := some x } → d' = { d with full_name := x })

/-- A sample stored doctor used by concrete witnesses. -/
def sampleDoctor : DoctorDoc :=
  { full_name := "Dr. Ann Lee", email := "ann@example.com",
    phone := some "555-0100", specialty := some "cardiology",
    facility_ids := ["f1"], tenant_id := some "t1" }

/-- A sample stored patient used by concrete witnesses. -/
def samplePatient : PatientDoc :=
  { full_name := "Ann Smith", tenant_id := some "t1" }

/-- A 24-hex-character identifier used by concrete witnesses. -/
def sampleId : String := "5f1d7a2b3c4d5e6f70818283"

/-- A creation payload without a status, used by concrete witnesses. -/
def samplePayload : AppointmentPayload :=
  { doctor_id := "d1", patient_id := "p1", start_time := "2026-01-01T10:00:00" }

/-- A partial doctor update carrying only `full_name`, used by concrete
witnesses. -/
def sampleUpdate : DoctorUpdate := { full_name := some "X" }

/-- The medication record of the spec's worked example. -/
def ibuprofen : Medication :=
  { name := some "Ibuprofen", dose := some "200mg", frequency := some "2x/day" }

/- ### Auxiliary lemmas -/

theorem truthyL_some_iff (v : List Char) : truthyL (some v) = true ↔ v ≠ [] := by
  cases v <;> simp [truthyL]

theorem cleanL_eq_some_iff (o : Option (List Char)) (v : List Char) :
    cleanL o = some v ↔ o = some v ∧ v ≠ [] := by
  cases o with
  | none => simp [cleanL, truthyL]
  | some w =>
    rcases w with - | ⟨c, cs⟩
    · simp [cleanL, truthyL]
    · simp only [cleanL, truthyL, if_pos]
      constructor
      · intro h
        obtain rfl : c :: cs = v := Option.some.inj h
        exact ⟨h, by simp⟩
      · exact fun h => h.1

/- ## Claim theorems -/

/-- **C9** (confirmed).  A transcript whose trimmed text is empty is
rejected with the 400-equivalent `EmptyInput` error and no extraction
result is produced. -/
theorem C9_empty_transcript_rejected (t : String) (h : pyStrip t.data = []) :
    generate_emr t = .error (.badRequest "Transcript is empty") := by
  simp only [generate_emr]
  rw [if_pos h]

/-- Witness for C9 at the whitespace-only transcript `"  \n "`. -/
theorem C9_empty_transcript_rejected_witness :
    pyStrip "  \n ".data = [] ∧
      generate_emr "  \n " = .error (.badRequest "Transcript is empty") :=
  ⟨by decide, C9_empty_transcript_rejected "  \n " (by decide)⟩

/-- **C5**, amended part.  The `status` of an accepted appointment is
the provided string unchanged, and defaults to `"scheduled"` exactly
when the payload omits it.  (No validation against the four listed
values happens: see the counterexample.) -/
theorem C5_status_default (p : AppointmentPayload) :
    (p.status = none → (mkAppointment p).status = "scheduled") ∧
      (∀ s, p.status = some s → (mkAppointment p).status = s) := by
  constructor
  · intro h; simp [mkAppointment, h]
  · intro s h; simp [mkAppointment, h]

/-- Witness for C5 at a payload without a status. -/
theorem C5_status_default_witness :
    samplePayload.status = none ∧ (mkAppointment samplePayload).status = "scheduled" :=
  ⟨rfl, (C5_status_default _).1 rfl⟩

/-- **C5**, counterexample to the claim as stated: creation accepts the
status `"banana"` unchanged, although it is not one of
{scheduled, completed, cancelled, no_show} — the value set is never
validated. -/
theorem C5_status_not_validated :
    (mkAppointment { samplePayload with status := some "banana" }).status = "banana" ∧
      "banana" ∉ appointmentStatuses := by
  constructor
  · rfl
  · decide

/-- **C7** (confirmed).  A doctor update with an empty partial-field set
performs no write: the store is returned unchanged, no error is raised,
and the response is `{"updated": false}`. -/
theorem C7_empty_update_noop (st : List (String × DoctorDoc)) (doctor_id : String)
    (u : DoctorUpdate) (h : u.isEmpty = true) :
    update_doctor st doctor_id u = .ok (st, .noUpdate) := by
  simp only [update_doctor]
  rw [if_pos h]

/-- Witness for C7: an empty update on a one-doctor store. -/
theorem C7_empty_update_noop_witness :
    (({} : DoctorUpdate).isEmpty = true) ∧
      update_doctor [(sampleId, sampleDoctor)] sampleId {} =
        .ok ([(sampleId, sampleDoctor)], .noUpdate) :=
  ⟨rfl, C7_empty_update_noop _ _ _ rfl⟩

/-- **C10** (confirmed).  On every list endpoint, a query parameter
supplied as `""` is treated exactly like an absent parameter: the same
documents are returned. -/
theorem C10_empty_param_like_absent :
    (∀ st : List DoctorDoc, list_doctors st (some "") = list_doctors st none) ∧
      (∀ (st : List PatientDoc) (s : Option String),
        list_patients st (some "") s = list_patients st none s) ∧
      (∀ (st : List PatientDoc) (t : Option String),
        list_patients st t (some "") = list_patients st t none) ∧
      (∀ (st : List AppointmentDoc) (t s : Option String),
        list_appointments st (some "") t s = list_appointments st none t s) ∧
      (∀ (st : List AppointmentDoc) (d s : Option String),
        list_appointments st d (some "") s = list_appointments st d none s) ∧
      (∀ (st : List AppointmentDoc) (d t : Option String),
        list_appointments st d t (some "") = list_appointments st d t none) := by
  refine ⟨?_, ?_, ?_, ?_, ?_, ?_⟩ <;> intros <;> rfl

/-- **C2**, amended part.  For every non-blank transcript the response
contains `summary`, equal to the first 500 characters of the TRIMMED
input. -/
theorem C2_summary_first500_of_trimmed (t : String) (h : pyStrip t.data ≠ []) :
    ∃ r, generate_emr t = .ok r ∧ r.summary = some ((pyStrip t.data).take 500) := by
  simp only [generate_emr]
  rw [if_neg h]
  refine ⟨_, rfl, ?_⟩
  show cleanL (some ((pyStrip t.data).take 500)) = some ((pyStrip t.data).take 500)
  have hne : (pyStrip t.data).take 500 ≠ [] := by
    intro hcontra
    rcases List.take_eq_nil_iff.mp hcontra with h0 | hl
    · exact absurd h0 (by norm_num)
    · exact h hl
  simp only [cleanL]
  rw [if_pos ((truthyL_some_iff _).mpr hne)]

/-- Witness for C2 at the transcript `"x"`. -/
theorem C2_summary_first500_of_trimmed_witness :
    pyStrip "x".data ≠ [] ∧
      ∃ r, generate_emr "x" = .ok r ∧ r.summary = some ((pyStrip "x".data).take 500) :=
  ⟨by decide, C2_summary_first500_of_trimmed "x" (by decide)⟩

/-- **C2**, counterexample to the claim as stated: on the non-blank
transcript `"  hi"` the summary is `"hi"` — the first 500 characters of
the STRIPPED text — not the first 500 characters of the input,
which begin with the two spaces. -/
theorem C2_summary_not_verbatim_input :
    generate_emr "  hi" = .ok { summary := some "hi".data } ∧
      some "hi".data ≠ some ("  hi".data.take 500) := by
  constructor
  · rfl
  · decide

/-- **C6**, amended.  For get-patient, get-appointment and non-empty
doctor updates, a malformed identifier yields the 400
`InvalidIdentifier` error (never `NotFound`) and a well-formed but
absent identifier yields the 404 `NotFound` error; a doctor update with
an empty field set instead returns `{"updated": false}` without
validating the identifier. -/
theorem C6_identifier_errors :
    (∀ (st : List (String × PatientDoc)) (pid : String), isValidObjectId pid = false →
        get_patient st pid = .error (.badRequest "Invalid id format")) ∧
      (∀ (st : List (String × PatientDoc)) (pid : String), isValidObjectId pid = true →
        find_one st (canonId pid) = none →
        get_patient st pid = .error (.notFound "Patient not found")) ∧
      (∀ (st : List (String × AppointmentDoc)) (aid : String), isValidObjectId aid = false →
        get_appointment st aid = .error (.badRequest "Invalid id format")) ∧
      (∀ (st : List (String × AppointmentDoc)) (aid : String), isValidObjectId aid = true →
        find_one st (canonId aid) = none →
        get_appointment st aid = .error (.notFound "Appointment not found")) ∧
      (∀ (st : List (String × DoctorDoc)) (did : String) (u : DoctorUpdate),
        u.isEmpty = false → isValidObjectId did = false →
        update_doctor st did u = .error (.badRequest "Invalid id format")) ∧
      (∀ (st : List (String × DoctorDoc)) (did : String) (u : DoctorUpdate),
        u.isEmpty = false → isValidObjectId did = true → find_one st (canonId did) = none →
        update_doctor st did u = .error (.notFound "Doctor not found")) ∧
      (∀ (st : List (String × DoctorDoc)) (did : String) (u : DoctorUpdate),
        u.isEmpty = true → update_doctor st did u = .ok (st, .noUpdate)) := by
  refine ⟨?_, ?_, ?_, ?_, ?_, ?_, ?_⟩
  · intro st pid hv
    simp [get_patient, oid, hv]
  · intro st pid hv hf
    simp [get_patient, oid, hv, hf]
  · intro st aid hv
    simp [get_appointment, oid, hv]
  · intro st aid hv hf
    simp [get_appointment, oid, hv, hf]
  · intro st did u hu hv
    simp [update_doctor, hu, oid, hv]
  · intro st did u hu hv hf
    simp [update_doctor, hu, oid, hv, hf]
  · intro st did u hu
    simp [update_doctor, hu]

/-- Witness for C6: each branch at a concrete store and identifier
(`"zz"` is malformed, `sampleId` is well-formed but absent). -/
theorem C6_identifier_errors_witness :
    get_patient ([] : List (String × PatientDoc)) "zz" =
        .error (.badRequest "Invalid id format") ∧
      get_patient ([] : List (String × PatientDoc)) sampleId =
        .error (.notFound "Patient not found") ∧
      get_appointment ([] : List (String × AppointmentDoc)) "zz" =
        .error (.badRequest "Invalid id format") ∧
      get_appointment ([] : List (String × AppointmentDoc)) sampleId =
        .error (.notFound "Appointment not found") ∧
      update_doctor ([] : List (String × DoctorDoc)) "zz" sampleUpdate =
        .error (.badRequest "Invalid id format") ∧
      update_doctor ([] : List (String × DoctorDoc)) sampleId sampleUpdate =
        .error (.notFound "Doctor not found") ∧
      update_doctor ([] : List (String × DoctorDoc)) "zz" {} = .ok ([], .noUpdate) :=
  ⟨C6_identifier_errors.1 [] "zz" (by decide),
    C6_identifier_errors.2.1 [] sampleId (by decide) rfl,
    C6_identifier_errors.2.2.1 [] "zz" (by decide),
    C6_identifier_errors.2.2.2.1 [] sampleId (by decide) rfl,
    C6_identifier_errors.2.2.2.2.1 [] "zz" sampleUpdate rfl (by decide),
    C6_identifier_errors.2.2.2.2.2.1 [] sampleId sampleUpdate rfl (by decide) rfl,
    C6_identifier_errors.2.2.2.2.2.2 [] "zz" {} rfl⟩

/-- **C6**, counterexample to the claim as stated: a doctor update with
a syntactically invalid identifier but an empty partial-field set does
NOT fail with `InvalidIdentifier` — it succeeds with
`{"updated": false}`, because the empty-body check runs before the
identifier is parsed. -/
theorem C6_empty_update_skips_id_validation :
    isValidObjectId "not-an-id" = false ∧
      update_doctor ([] : List (String × DoctorDoc)) "not-an-id" {} =
        .ok ([], .noUpdate) := by
  constructor
  · decide
  · rfl

/-- **C8** (confirmed).  A non-empty partial update of an existing
doctor succeeds and the resulting document satisfies the frame
conditions of `UpdatedDoctorSpec`: provided fields are overwritten,
every other field keeps its prior value; in particular
`{full_name := "X"}` changes only `full_name`. -/
theorem C8_partial_update_frame (st : List (String × DoctorDoc)) (did : String)
    (u : DoctorUpdate) (d : DoctorDoc) (hu : u.isEmpty = false)
    (hv : isValidObjectId did = true) (hf : find_one st (canonId did) = some d) :
    ∃ st', update_doctor st did u = .ok (st', .doc (applyDoctorUpdate u d)) ∧
      UpdatedDoctorSpec u d (applyDoctorUpdate u d) := by
  refine ⟨st.map (fun p =>
    if p.fst == canonId did then (p.fst, applyDoctorUpdate u d) else p), ?_, ?_⟩
  · simp [update_doctor, hu, oid, hv, hf]
  · unfold UpdatedDoctorSpec
    refine ⟨rfl, rfl, ?_, ?_, ?_, ?_, ?_, ?_, ?_, ?_, ?_, ?_, ?_, ?_, ?_⟩
    · intro x hx; simp [applyDoctorUpdate, hx]
    · intro hx; simp [applyDoctorUpdate, hx]
    · intro x hx; simp [applyDoctorUpdate, hx]
    · intro hx; simp [applyDoctorUpdate, hx]
    · intro x hx; simp [applyDoctorUpdate, hx]
    · intro hx; simp [applyDoctorUpdate, hx]
    · intro x hx; simp [applyDoctorUpdate, hx]
    · intro hx; simp [applyDoctorUpdate, hx]
    · intro x hx; simp [applyDoctorUpdate, hx]
    · intro hx; simp [applyDoctorUpdate, hx]
    · intro x hx; simp [applyDoctorUpdate, hx]
    · intro hx; simp [applyDoctorUpdate, hx]
    · intro x hx
      subst hx
      rfl

/-- Witness for C8: renaming the sample doctor to `"X"`. -/
theorem C8_partial_update_frame_witness :
    sampleUpdate.isEmpty = false ∧ isValidObjectId sampleId = true ∧
      find_one [(sampleId, sampleDoctor)] (canonId sampleId) = some sampleDoctor ∧
      ∃ st', update_doctor [(sampleId, sampleDoctor)] sampleId sampleUpdate =
          .ok (st', .doc (applyDoctorUpdate sampleUpdate sampleDoctor)) ∧
        UpdatedDoctorSpec sampleUpdate sampleDoctor
          (applyDoctorUpdate sampleUpdate sampleDoctor) :=
  ⟨rfl, by decide, by decide,
    C8_partial_update_frame _ _ _ _ rfl (by decide) (by decide)⟩

theorem startsWithL_iff (n : List Char) :
    ∀ h : List Char, startsWithL n h = true ↔ ∃ t, h = n ++ t := by
  induction n with
  | nil => intro h; simp [startsWithL]
  | cons a as ih =>
    intro h
    cases h with
    | nil => simp [startsWithL]
    | cons b bs =>
      simp only [startsWithL, Bool.and_eq_true, beq_iff_eq]
      rw [ih bs]
      constructor
      · rintro ⟨rfl, t, rfl⟩
        exact ⟨t, rfl⟩
      · rintro ⟨t, ht⟩
        injection ht with h1 h2
        exact ⟨h1.symm, t, h2⟩

theorem containsL_iff (n : List Char) :
    ∀ h : List Char, containsL n h = true ↔ occursIn n h := by
  intro h
  induction h with
  | nil =>
    simp only [containsL]
    rw [startsWithL_iff]
    constructor
    · rintro ⟨t, ht⟩
      exact ⟨[], t, by simpa using ht⟩
    · rintro ⟨u, v, huv⟩
      rcases List.append_eq_nil.mp huv.symm with ⟨h1, h2⟩
      rcases List.append_eq_nil.mp h1 with ⟨h3, h4⟩
      exact ⟨[], by simp [h3, h4, h2]⟩
  | cons b bs ih =>
    simp only [containsL, Bool.or_eq_true]
    rw [startsWithL_iff, ih]
    constructor
    · rintro (⟨t, ht⟩ | ⟨u, v, huv⟩)
      · exact ⟨[], t, by simpa using ht⟩
      · exact ⟨b :: u, v, by simp [huv]⟩
    · rintro ⟨u, v, huv⟩
      cases u with
      | nil => exact Or.inl ⟨v, by simpa using huv⟩
      | cons x xs =>
        right
        injection huv with h1 h2
        exact ⟨xs, v, h2⟩

/-- **C3** (confirmed, with the `get_documents` evaluation modelled from
the spec).  With a non-empty `search` parameter, a patient document is
returned iff it is stored, satisfies the tenant constraint when one is
supplied (non-empty), and its `full_name` contains the search string as
a substring ignoring case; the constraints combine with logical AND. -/
theorem C3_search_is_substring_filter (st : List PatientDoc) (tenant_id : Option String)
    (s : String) (hs : s ≠ "") (d : PatientDoc) :
    d ∈ list_patients st tenant_id (some s) ↔
      (d ∈ st ∧ (∀ t, tenant_id = some t → t ≠ "" → d.tenant_id = some t) ∧
        occursIn (s.data.map lowerC) (d.full_name.data.map lowerC)) := by
  have hts : truthyStr (some s) = true := by
    simp only [truthyStr, Bool.not_eq_true']
    exact beq_eq_false_iff_ne.mpr hs
  simp only [list_patients]
  rw [if_pos hts, List.mem_filter]
  rcases tenant_id with - | t
  · rw [if_neg (by simp [truthyStr])]
    simp [patientMatches, containsCI, containsL_iff]
  · by_cases ht : t = ""
    · subst ht
      rw [if_neg (by simp [truthyStr])]
      simp [patientMatches, containsCI, containsL_iff]
    · rw [if_pos (by simp [truthyStr, ht])]
      simp [patientMatches, containsCI, containsL_iff, ht]

/-- Witness for C3: searching `"ann"` over a one-patient store finds
`"Ann Smith"`. -/
theorem C3_search_is_substring_filter_witness :
    ("ann" ≠ "") ∧
      (samplePatient ∈ list_patients [samplePatient] none (some "ann") ↔
        (samplePatient ∈ [samplePatient] ∧
          (∀ t, (none : Option String) = some t → t ≠ "" →
            samplePatient.tenant_id = some t) ∧
          occursIn ("ann".data.map lowerC) (samplePatient.full_name.data.map lowerC))) :=
  ⟨by decide, C3_search_is_substring_filter [samplePatient] none "ann" (by decide) samplePatient⟩

theorem filter_filterMap_getD (l : List (Option String)) :
    (l.filterMap id).filter (fun x => x ≠ "") =
      (l.map (fun o => o.getD "")).filter (fun x => x ≠ "") := by
  induction l with
  | nil => rfl
  | cons o t ih =>
    cases o with
    | none => simpa using ih
    | some x =>
      simp only [List.filterMap_cons, id_eq, List.map_cons, Option.getD_some,
        List.filter_cons]
      rw [ih]

theorem medLine_eq_spec (m : Medication) : medLine m = specMedicationLine m := by
  have hl : [m.name.getD "Medicine", m.dose.getD "", m.route.getD "",
      m.frequency.getD "", m.duration.getD ""] =
      ([some (m.name.getD "Medicine"), m.dose, m.route, m.frequency,
        m.duration].map (fun o => o.getD "")) := by
    simp
  simp only [medLine, specMedicationLine, hl, ← filter_filterMap_getD]
  cases m.notes with
  | none => rfl
  | some n =>
    by_cases hn : n = ""
    · simp [hn]
    · simp [hn]

/-- **C4** (confirmed).  The prescription preview emits exactly one line
per medication, in input order, each line formed as the claim words it
(`specMedicationLine`); the count equals the number of lines; and the
worked example produces `"Ibuprofen, 200mg, 2x/day"` with count 1. -/
theorem C4_preview_one_line_per_medication :
    (∀ p : PrescriptionInput,
      (prescription_preview p).preview =
          String.intercalate "\n" (p.medications.map specMedicationLine) ∧
        (prescription_preview p).count = p.medications.length) ∧
      prescription_preview { medications := [ibuprofen] } =
        { preview := "Ibuprofen, 200mg, 2x/day", count := 1 } := by
  constructor
  · intro p
    constructor
    · simp only [prescription_preview]
      rw [show medLine = specMedicationLine from funext medLine_eq_spec]
    · simp [prescription_preview]
  · rfl

theorem hereMatch_nil (label : List Char) : hereMatch label [] = false := by
  simp [hereMatch]

theorem hereMatch_iff (label s : List Char) :
    hereMatch label s = true ↔
      ((s.take label.length).map lowerC = label ∧
        ∃ d, (s.drop label.length).head? = some d ∧ (d = ':' ∨ d = '-')) := by
  cases hd : s.drop label.length with
  | nil => simp [hereMatch, hd]
  | cons d tl => simp [hereMatch, hd]

theorem hereMatch_drop_iff_labelAt (label text : List Char) (i : Nat) :
    hereMatch label (text.drop i) = true ↔ labelAt label text i := by
  rw [hereMatch_iff]
  exact Iff.rfl

theorem hereMatch_drop_eq_false_iff (label text : List Char) (i : Nat) :
    hereMatch label (text.drop i) = false ↔ ¬ labelAt label text i := by
  rw [← hereMatch_drop_iff_labelAt]
  cases hereMatch label (text.drop i) <;> simp

theorem findIdx_some_iff (label : List Char) :
    ∀ (text : List Char) (i : Nat),
      findIdx label text = some i ↔
        (hereMatch label (text.drop i) = true ∧
          ∀ j, j < i → hereMatch label (text.drop j) = false) := by
  intro text
  induction text with
  | nil =>
    intro i
    constructor
    · intro h
      simp [findIdx] at h
    · rintro ⟨h1, -⟩
      rw [List.drop_nil, hereMatch_nil] at h1
      exact absurd h1 (by simp)
  | cons c cs ih =>
    intro i
    by_cases h : hereMatch label (c :: cs) = true
    · simp only [findIdx]
      rw [if_pos h]
      cases i with
      | zero =>
        simp only [List.drop_zero]
        constructor
        · rintro -
          exact ⟨h, fun j hj => absurd hj (Nat.not_lt_zero j)⟩
        · rintro -
          trivial
      | succ k =>
        constructor
        · intro hcontra
          exact absurd hcontra (by simp)
        · rintro ⟨-, hall⟩
          have h0 := hall 0 (Nat.succ_pos k)
          rw [List.drop_zero, h] at h0
          exact absurd h0 (by simp)
    · have hf : hereMatch label (c :: cs) = false := by
        cases hh : hereMatch label (c :: cs)
        · rfl
        · exact absurd hh h
      simp only [findIdx]
      rw [if_neg h]
      cases i with
      | zero =>
        constructor
        · intro hcontra
          rcases hmap : findIdx label cs with - | k
          · rw [hmap] at hcontra
            simp at hcontra
          · rw [hmap] at hcontra
            simp at hcontra
        · rintro ⟨h1, -⟩
          rw [List.drop_zero, hf] at h1
          exact absurd h1 (by simp)
      | succ k =>
        constructor
        · intro hsome
          have hk : findIdx label cs = some k := by
            rcases hmap : findIdx label cs with - | k'
            · rw [hmap] at hsome
              simp at hsome
            · rw [hmap] at hsome
              simp only [Option.map_some'] at hsome
              have hk' : k' + 1 = k + 1 := Option.some.inj hsome
              have hkk : k' = k := by omega
              rw [hkk]
          obtain ⟨ih1, ih2⟩ := (ih k).mp hk
          refine ⟨?_, ?_⟩
          · rw [List.drop_succ_cons]
            exact ih1
          · intro j hj
            cases j with
            | zero =>
              rw [List.drop_zero]
              exact hf
            | succ j' =>
              rw [List.drop_succ_cons]
              exact ih2 j' (by omega)
        · rintro ⟨h1, h2⟩
          rw [List.drop_succ_cons] at h1
          have h2' : ∀ j, j < k → hereMatch label (cs.drop j) = false := by
            intro j hj
            have hstep := h2 (j + 1) (by omega)
            rwa [List.drop_succ_cons] at hstep
          rw [(ih k).mpr ⟨h1, h2'⟩]
          rfl

theorem findIdx_eq_some_iff_labelAt (label text : List Char) (i : Nat) :
    findIdx label text = some i ↔
      (labelAt label text i ∧ ∀ j, j < i → ¬ labelAt label text j) := by
  rw [findIdx_some_iff]
  constructor
  · rintro ⟨h1, h2⟩
    refine ⟨(hereMatch_drop_iff_labelAt _ _ _).mp h1, ?_⟩
    intro j hj
    exact (hereMatch_drop_eq_false_iff _ _ _).mp (h2 j hj)
  · rintro ⟨h1, h2⟩
    refine ⟨(hereMatch_drop_iff_labelAt _ _ _).mpr h1, ?_⟩
    intro j hj
    exact (hereMatch_drop_eq_false_iff _ _ _).mpr (h2 j hj)

theorem capturesTo_cleanL_reFind (label text : List Char) :
    capturesTo label text (cleanL (reFind label text)) := by
  intro v
  rw [cleanL_eq_some_iff]
  unfold reFind
  constructor
  · rintro ⟨hr, hv⟩
    obtain ⟨i, hi, hveq⟩ := Option.map_eq_some'.mp hr
    obtain ⟨h1, h2⟩ := (findIdx_eq_some_iff_labelAt label text i).mp hi
    exact ⟨hv, i, h1, h2, hveq.symm⟩
  · rintro ⟨hv, i, hAt, hLeast, hveq⟩
    have hfi : findIdx label text = some i :=
      (findIdx_eq_some_iff_labelAt label text i).mpr ⟨hAt, hLeast⟩
    refine ⟨?_, hv⟩
    rw [hfi, Option.map_some', hveq]

theorem truthyL_reFind_iff (label text : List Char) :
    truthyL (reFind label text) = true ↔ primaryTruthy label text := by
  unfold reFind
  rcases hfi : findIdx label text with - | i
  · simp only [Option.map_none']
    constructor
    · intro hcontra
      exact absurd hcontra (by simp [truthyL])
    · rintro ⟨i, hAt, hLeast, -⟩
      have hsome : findIdx label text = some i :=
        (findIdx_eq_some_iff_labelAt label text i).mpr ⟨hAt, hLeast⟩
      rw [hfi] at hsome
      exact absurd hsome (by simp)
  · simp only [Option.map_some']
    rw [truthyL_some_iff]
    obtain ⟨hAt, hLeast⟩ := (findIdx_eq_some_iff_labelAt label text i).mp hfi
    constructor
    · intro hne
      exact ⟨i, hAt, hLeast, hne⟩
    · rintro ⟨i', hAt', hLeast', hne'⟩
      have hii : i' = i := by
        by_contra hne''
        rcases Nat.lt_or_ge i' i with hlt | hge
        · exact hLeast i' hlt hAt'
        · exact hLeast' i (by omega) hAt
      subst hii
      exact hne'

/-- **C1**, amended.  On every non-blank transcript each section label
(chief complaint / cc, hpi, ros, exam, assessment, plan) is recognized
case-insensitively when immediately followed by `:` or `-`, at its
leftmost occurrence, and the captured value is all text from after the
label to the END of the text (trimmed), omitted when blank — with the
`cc` fallback taken exactly when the `chief complaint` capture is
falsy. -/
theorem C1_sections_capture_to_text_end (t : String) (h : pyStrip t.data ≠ []) :
    C1Body t := by
  unfold C1Body
  simp only [generate_emr]
  rw [if_neg h]
  refine ⟨_, rfl, ?_, ?_, ?_, ?_, ?_, ?_, ?_⟩
  · exact capturesTo_cleanL_reFind _ _
  · exact capturesTo_cleanL_reFind _ _
  · exact capturesTo_cleanL_reFind _ _
  · exact capturesTo_cleanL_reFind _ _
  · exact capturesTo_cleanL_reFind _ _
  · intro hp
    have ht : truthyL (reFind "chief complaint".data (pyStrip t.data)) = true :=
      (truthyL_reFind_iff _ _).mpr hp
    show capturesTo "chief complaint".data (pyStrip t.data)
      (cleanL (pyOrL (reFind "chief complaint".data (pyStrip t.data))
        (reFind "cc".data (pyStrip t.data))))
    unfold pyOrL
    rw [if_pos ht]
    exact capturesTo_cleanL_reFind _ _
  · intro hp
    have ht : truthyL (reFind "chief complaint".data (pyStrip t.data)) = false := by
      cases hh : truthyL (reFind "chief complaint".data (pyStrip t.data))
      · rfl
      · exact absurd ((truthyL_reFind_iff _ _).mp hh) hp
    show capturesTo "cc".data (pyStrip t.data)
      (cleanL (pyOrL (reFind "chief complaint".data (pyStrip t.data))
        (reFind "cc".data (pyStrip t.data))))
    unfold pyOrL
    rw [if_neg (by simp [ht])]
    exact capturesTo_cleanL_reFind _ _

/-- Witness for C1 at the transcript `"plan: rest"`. -/
theorem C1_sections_capture_to_text_end_witness :
    pyStrip "plan: rest".data ≠ [] ∧ C1Body "plan: rest" :=
  ⟨by decide, C1_sections_capture_to_text_end "plan: rest" (by decide)⟩

/-- **C1**, counterexample to the claim as stated: on the spec's own
example the `chief complaint` capture runs past the `Plan:` label to the
end of the text (the regexes use `re.DOTALL` with a greedy `(.*)`), so
`chief_complaint` is `"cough\nPlan: rest"`, not `"cough"`. -/
theorem C1_capture_crosses_labels :
    generate_emr "Chief Complaint: cough\nPlan: rest" =
        .ok { chief_complaint := some "cough\nPlan: rest".data,
              plan := some "rest".data,
              summary := some "Chief Complaint: cough\nPlan: rest".data } ∧
      some "cough\nPlan: rest".data ≠ some "cough".data := by
  constructor
  · rfl
  · decide

end DoctorApp
